import Mathlib

/-!
Shallow embedding of `src/app.py` (pdp_help): an Excel-backed product/color
image-consistency checker.  Cells are modelled as `Option String`: `none` is a
missing value (pandas NaN), `some s` a value whose Python `str()` form is `s`.
Pandas `astype(str)` turns a missing value into the string "nan"; the cell
normalizer `normalize` instead maps it to `none`.  Tables are header + rows;
pandas column selection is name-based (first matching column).
-/

namespace PdpHelp

/-- Python `str.strip()`: drop leading and trailing whitespace.  Defined by
structural recursion over the character list so that concrete instances
evaluate inside the kernel. -/
def pyStrip (s : String) : String :=
  ⟨((s.data.dropWhile Char.isWhitespace).reverse.dropWhile Char.isWhitespace).reverse⟩

/-- Python `s.startswith(pre)`. -/
def pyStartsWith (s pre : String) : Bool :=
  pre.data.isPrefixOf s.data

/-- A spreadsheet cell as pandas holds it: `none` models NaN (missing), `some s`
a value whose string form is `s`. -/
abbrev Cell := Option String

/-- Python `str(val)` as pandas `astype(str)` applies it: NaN stringifies to "nan". -/
def cellStr : Cell → String
  | none => "nan"
  | some s => s

/-- The trimmed `astype(str)` view of a cell: `astype(str).str.strip()`. -/
def strView (c : Cell) : String := pyStrip (cellStr c)

-- Column display/machine labels (app.py lines 25-35)
def DISPLAY_PRODUCT_NAME : String := "Product Name"
def DISPLAY_COLOR : String := "Color"
def DISPLAY_MAIN_IMAGE : String := "Main Image URL"
def DISPLAY_SWATCH : String := "Swatch Image URL"
def DISPLAY_GTIN : String := "Sellable GTIN"

def MACHINE_PRODUCT_NAME : String := "productName"
def MACHINE_COLOR : String := "color"
def MACHINE_MAIN_IMAGE : String := "mainImageUrl"
def MACHINE_SWATCH : String := "swatchImageUrl"
def MACHINE_GTIN : String := "sellableGtin"

-- Documentation phrases used to filter non-data rows (app.py lines 38-39)
def DOC_PHRASES_IMAGE : String := "URL, 2500 characters - Main image of the item"
def DOC_PHRASES_COLOR : String := "Alphanumeric, 600 characters - Color refers"

/-- `normalize(val)` from app.py: NaN gives `none`, otherwise the trimmed string
form, with the empty trim collapsed to `none`. -/
def normalize (val : Cell) : Option String :=
  match val with
  | none => none
  | some s => let t := pyStrip s; if t = "" then none else some t

/-- A header-applied pandas DataFrame: ordered column names plus rows of cells
(each row aligned positionally with `columns`). -/
structure DataFrame where
  columns : List String
  rows : List (List Cell)
deriving DecidableEq, Repr

/-- The cell of `row` under column name `c`, given the header `cols`
(pandas selects the first column with that name; a missing entry is NaN). -/
def cellAt (cols : List String) (row : List Cell) (c : String) : Cell :=
  match cols.findIdx? (fun x => x == c) with
  | some i => row.getD i none
  | none => none

/-- `df[c]`: the column named `c` as a list of cells in row order. -/
def getCol (df : DataFrame) (c : String) : List Cell :=
  df.rows.map (fun r => cellAt df.columns r c)

/-- A raw, header-less sheet view (`pd.read_excel(..., header=None)`). -/
abbrev Grid := List (List Cell)

/-- One raw row after `astype(str)` and per-cell strip: the stringified trimmed
cell values. -/
def rowStrs (row : List Cell) : List String := row.map strView

/-- Does a raw row contain every required label (`must_include.issubset(row_values)`)? -/
def row_has_labels (must_include : List String) (row : List Cell) : Bool :=
  must_include.all (fun l => (rowStrs row).contains l)

/-- Does a raw row contain the machine main-image label (the fallback test)? -/
def row_has_fallback (row : List Cell) : Bool :=
  (rowStrs row).contains MACHINE_MAIN_IMAGE

/-- `find_header_row_by_labels` from app.py: first row whose stringified trimmed
values include every required label; else the first row containing
`mainImageUrl`; else a header-not-located error. -/
def find_header_row_by_labels (grid : Grid) (must_include : List String) :
    Except String Nat :=
  match grid.findIdx? (row_has_labels must_include) with
  | some idx => Except.ok idx
  | none =>
    match grid.findIdx? row_has_fallback with
    | some idx => Except.ok idx
    | none => Except.error "Could not locate header row"

/-- `pd.read_excel(..., header=h)`: column names are the stringified cells of raw
row `h`, the data rows are the raw rows below it. -/
def applyHeader (grid : Grid) (h : Nat) : DataFrame :=
  { columns := (grid.getD h []).map cellStr
    rows := grid.drop (h + 1) }

/-- `load_with_detected_header` from app.py: detect the header row by the display
main-image label, then load with that header. -/
def load_with_detected_header (grid : Grid) : Except String DataFrame :=
  match find_header_row_by_labels grid [DISPLAY_MAIN_IMAGE] with
  | Except.ok h => Except.ok (applyHeader grid h)
  | Except.error e => Except.error e

/-- `normalize_columns` from app.py: trim all column names. -/
def normalize_columns (df : DataFrame) : DataFrame :=
  { df with columns := df.columns.map pyStrip }

/-- The inner `pick` of `resolve_column_names`: exact display label, else exact
machine label, else the first column whose name starts with the machine label. -/
def pick (columns : List String) (display_lbl machine_lbl : String) : Option String :=
  if columns.contains display_lbl then some display_lbl
  else if columns.contains machine_lbl then some machine_lbl
  else columns.find? (fun c => pyStartsWith c machine_lbl)

/-- The resolved role-to-column mapping (`resolve_column_names`'s result dict). -/
structure ResolvedCols where
  product : String
  color : String
  main : String
  swatch : Option String
  gtin : Option String
deriving DecidableEq, Repr

/-- The KeyError raised by `resolve_column_names`: which required display names
are missing, and all available column names. -/
structure ResolveError where
  missing : List String
  available : List String
deriving DecidableEq, Repr

/-- The `missing` list built by `resolve_column_names` from the three required
role resolutions. -/
def missingOf (col_product col_color col_main : Option String) : List String :=
  (if col_product.isNone then [DISPLAY_PRODUCT_NAME] else []) ++
  (if col_color.isNone then [DISPLAY_COLOR] else []) ++
  (if col_main.isNone then [DISPLAY_MAIN_IMAGE] else [])

/-- `resolve_column_names` from app.py. -/
def resolve_column_names (df : DataFrame) : Except ResolveError ResolvedCols :=
  let col_product := pick df.columns DISPLAY_PRODUCT_NAME MACHINE_PRODUCT_NAME
  let col_color := pick df.columns DISPLAY_COLOR MACHINE_COLOR
  let col_main := pick df.columns DISPLAY_MAIN_IMAGE MACHINE_MAIN_IMAGE
  let col_swatch := pick df.columns DISPLAY_SWATCH MACHINE_SWATCH
  let col_gtin := pick df.columns DISPLAY_GTIN MACHINE_GTIN
  match col_product, col_color, col_main with
  | some p, some c, some m =>
    Except.ok { product := p, color := c, main := m, swatch := col_swatch, gtin := col_gtin }
  | _, _, _ =>
    Except.error { missing := missingOf col_product col_color col_main
                   available := df.columns }

/-- The header-echo mask of `drop_non_data_rows`: the trimmed string view of the
color cell is a color header label, or of the image cell a main-image label. -/
def row_is_header_like (cols : List String) (color_col image_col : String)
    (row : List Cell) : Bool :=
  let sc := strView (cellAt cols row color_col)
  let si := strView (cellAt cols row image_col)
  (sc == DISPLAY_COLOR || sc == MACHINE_COLOR) ||
  (si == DISPLAY_MAIN_IMAGE || si == MACHINE_MAIN_IMAGE)

/-- The documentation-row mask of `drop_non_data_rows`. -/
def row_is_doc_row (cols : List String) (color_col image_col : String)
    (row : List Cell) : Bool :=
  let sc := strView (cellAt cols row color_col)
  let si := strView (cellAt cols row image_col)
  pyStartsWith si DOC_PHRASES_IMAGE || pyStartsWith sc DOC_PHRASES_COLOR

/-- The blank-row mask of `drop_non_data_rows`: both trimmed `astype(str)` views
are empty strings (a missing cell stringifies to "nan", not ""). -/
def row_is_blank_row (cols : List String) (color_col image_col : String)
    (row : List Cell) : Bool :=
  strView (cellAt cols row color_col) == "" && strView (cellAt cols row image_col) == ""

/-- The full exclusion mask of `drop_non_data_rows`. -/
def row_dropped (cols : List String) (color_col image_col : String)
    (row : List Cell) : Bool :=
  row_is_header_like cols color_col image_col row ||
  row_is_doc_row cols color_col image_col row ||
  row_is_blank_row cols color_col image_col row

/-- `drop_non_data_rows` from app.py: keep the rows the combined mask does not
match, in order. -/
def drop_non_data_rows (df : DataFrame) (color_col image_col : String) : DataFrame :=
  { columns := df.columns
    rows := df.rows.filter (fun r => !row_dropped df.columns color_col image_col r) }

/-- `get_additional_columns` from app.py: columns named with either
additional-image prefix, in column order. -/
def get_additional_columns (df : DataFrame) : List String :=
  df.columns.filter
    (fun c => pyStartsWith c "Additional Image URL" || pyStartsWith c "productSecondaryImageURL")

/-- `column_valid` from app.py: normalize every cell; valid when no non-blank
value exists, or all cells are non-blank with exactly one distinct value. -/
def column_valid (series : List Cell) : Bool :=
  let vals := series.map normalize
  let non_empty := vals.filterMap id
  if non_empty.length = 0 then true
  else if non_empty.length ≠ vals.length then false
  else non_empty.dedup.length == 1

/-- Python truthiness of an optional string: `None` and `""` are falsy. -/
def truthy : Option String → Bool
  | none => false
  | some s => s != ""

/-- Python `next((v for v in vals if v), None)`: the first truthy value. -/
def first_truthy (vals : List (Option String)) : Option String :=
  (vals.find? truthy).join

/-- First truthy normalized value of column `c` of `df`, in row order. -/
def first_image (df : DataFrame) (c : String) : Option String :=
  first_truthy ((getCol df c).map normalize)

/-- The image payload dict: a `none` field is an absent key. -/
structure ImageData where
  main : Option String := none
  additional : Option (List String) := none
  swatch : Option String := none
deriving DecidableEq, Repr

/-- The empty payload `{}`. -/
def ImageData.empty : ImageData := {}

/-- Payload assembly on the `same` verdict (app.py lines 203-232). -/
def build_image_data (df_pc : DataFrame) (cols : ResolvedCols) : ImageData :=
  let main_val := if df_pc.columns.contains cols.main then first_image df_pc cols.main else none
  let additional_images :=
    (get_additional_columns df_pc).filterMap
      (fun c =>
        if df_pc.columns.contains c then
          let add_val := first_image df_pc c
          if truthy add_val then add_val else none
        else none)
  let swatch_val :=
    match cols.swatch with
    | some sw =>
      if sw != "" && df_pc.columns.contains sw then first_image df_pc sw else none
    | none => none
  { main := if truthy main_val then main_val else none
    additional := if additional_images.isEmpty then none else some additional_images
    swatch := if truthy swatch_val then swatch_val else none }

/-- The boolean row selector `df[col].astype(str).str.strip() == target.strip()`. -/
def stripped_eq (cols : List String) (col target : String) (row : List Cell) : Bool :=
  strView (cellAt cols row col) == pyStrip target

/-- `df[mask]` for the stripped-equality mask on column `col`. -/
def select_rows (df : DataFrame) (col target : String) : DataFrame :=
  { columns := df.columns
    rows := df.rows.filter (stripped_eq df.columns col target) }

/-- The swatch-validity test of `check` (app.py lines 199-201), including the
Python truthiness test on the resolved swatch name. -/
def swatch_invalid (df_pc : DataFrame) (cols : ResolvedCols) : Bool :=
  match cols.swatch with
  | some sw => sw != "" && df_pc.columns.contains sw && !column_valid (getCol df_pc sw)
  | none => false

/-- Does any main/additional image column fail `column_valid` on the selected
rows (app.py lines 193-197)? -/
def images_invalid (cols_to_check : List String) (df_pc : DataFrame) : Bool :=
  cols_to_check.any
    (fun c => df_pc.columns.contains c && !column_valid (getCol df_pc c))

/-- `check` from app.py: resolve columns, drop non-data rows, select the product
then the color rows, test image-column consistency, and assemble the payload. -/
def check (df : DataFrame) (product_name color : String) :
    Except ResolveError (String × ImageData) :=
  match resolve_column_names df with
  | Except.error e => Except.error e
  | Except.ok cols =>
    let df1 := drop_non_data_rows df cols.color cols.main
    let df_prod := select_rows df1 cols.product product_name
    if df_prod.rows.isEmpty then Except.ok ("product not found", ImageData.empty)
    else
      let df_pc := select_rows df_prod cols.color color
      if df_pc.rows.isEmpty then Except.ok ("color not there", ImageData.empty)
      else if images_invalid (cols.main :: get_additional_columns df1) df_pc then
        Except.ok ("something is wrong", ImageData.empty)
      else if swatch_invalid df_pc cols then
        Except.ok ("swatch is wrong", ImageData.empty)
      else
        Except.ok ("same", build_image_data df_pc cols)

/-- The product-color row group `check` validates: non-data rows dropped, then
the product selection, then the color selection. -/
def group_rows (df : DataFrame) (cols : ResolvedCols) (product_name color : String) :
    DataFrame :=
  select_rows (select_rows (drop_non_data_rows df cols.color cols.main)
    cols.product product_name) cols.color color

/-- An Excel workbook: named sheets, each a raw grid. -/
abbrev Workbook := List (String × Grid)

/-- `xl.sheet_names`. -/
def sheet_names (wb : Workbook) : List String := wb.map Prod.fst

/-- The named sheet of a workbook, if present. -/
def lookup_sheet (wb : Workbook) (sheet : String) : Option Grid :=
  (wb.find? (fun p => p.fst == sheet)).map Prod.snd

/-- Errors `check_excel` and its callees can produce, by stage. -/
inductive EngineError where
  /-- FileNotFoundError: the path does not exist. -/
  | fileNotFound : EngineError
  /-- The crafted ValueError of check_excel's own sheet-existence test. -/
  | sheetNotFoundDetected : EngineError
  /-- The ValueError pandas raises when `read_excel` is given a missing sheet. -/
  | worksheetNotFoundAtLoad : EngineError
  /-- The ValueError of `find_header_row_by_labels`. -/
  | headerNotLocated : EngineError
  /-- The KeyError of `resolve_column_names`. -/
  | missingColumns : ResolveError → EngineError
deriving DecidableEq, Repr

/-- The sheet-existence test inside `check_excel`'s try block (app.py lines
252-254): the crafted ValueError when the sheet name is absent. -/
def sheet_exists_check (wb : Workbook) (sheet : String) : Except EngineError Unit :=
  if (sheet_names wb).contains sheet then Except.ok ()
  else Except.error EngineError.sheetNotFoundDetected

/-- `check_excel` from app.py over an abstract file system.  The sheet-existence
test runs inside `try ... except Exception: pass` (app.py lines 251-257), so its
result — including the crafted sheet-not-found ValueError — is discarded and
execution always continues to `load_with_detected_header`. -/
def check_excel (fs : String → Option Workbook) (path sheet product_name color : String) :
    Except EngineError (String × ImageData) :=
  match fs path with
  | none => Except.error EngineError.fileNotFound
  | some wb =>
    let _ := sheet_exists_check wb sheet
    match lookup_sheet wb sheet with
    | none => Except.error EngineError.worksheetNotFoundAtLoad
    | some grid =>
      match find_header_row_by_labels grid [DISPLAY_MAIN_IMAGE] with
      | Except.error _ => Except.error EngineError.headerNotLocated
      | Except.ok h =>
        match check (normalize_columns (applyHeader grid h)) product_name color with
        | Except.error e => Except.error (EngineError.missingColumns e)
        | Except.ok r => Except.ok r

/-- The GTIN row mask `df[gtin_col].astype(str).str.strip() == str(gtin).strip()`
resolved to its first match (`matches.iloc[0]`). -/
def first_gtin_match (df : DataFrame) (gtin_col : String) (gtin : String) :
    Option (List Cell) :=
  df.rows.find? (fun r => strView (cellAt df.columns r gtin_col) == pyStrip gtin)

/-- Boundary failures of the HTTP route's GTIN lookup (app.py lines 300-320). -/
inductive RouteError where
  | missingColumns : ResolveError → RouteError
  | noGtinColumn : RouteError
  | gtinNotFound : RouteError
  | productNotInSheet : RouteError
  | colorNotInSheet : RouteError
deriving DecidableEq, Repr

/-- The GTIN-to-(product, color) lookup of the `/check` route (app.py lines
300-320): resolve columns, require a GTIN column, take the first matching row,
and extract its normalized product name and color (each required truthy). -/
def validation_lookup (df : DataFrame) (gtin : String) :
    Except RouteError (String × String) :=
  match resolve_column_names df with
  | Except.error e => Except.error (RouteError.missingColumns e)
  | Except.ok cols =>
    match cols.gtin with
    | none => Except.error RouteError.noGtinColumn
    | some g =>
      if g = "" then Except.error RouteError.noGtinColumn
      else
        match first_gtin_match df g gtin with
        | none => Except.error RouteError.gtinNotFound
        | some row =>
          match normalize (cellAt df.columns row cols.product),
                normalize (cellAt df.columns row cols.color) with
          | some p, some c => Except.ok (p, c)
          | none, _ => Except.error RouteError.productNotInSheet
          | some _, none => Except.error RouteError.colorNotInSheet

/-- The `/check` route's engine part after the upload: lookup by GTIN, then run
the checker on the same loaded table with the extracted product and color. -/
def validation_check (df : DataFrame) (gtin : String) :
    Except RouteError (Except ResolveError (String × ImageData)) :=
  match validation_lookup df gtin with
  | Except.error e => Except.error e
  | Except.ok (p, c) => Except.ok (check df p c)

/-- The GTIN-to-(product, color) lookup of `print_images_for_gtin` (app.py lines
419-437); errors are the CLI exit codes 5 (no GTIN column), 6 (GTIN not found)
and 7 (product or color undetermined). -/
def cli_lookup (df : DataFrame) (gtin : String) : Except Nat (String × String) :=
  match resolve_column_names df with
  | Except.error _ => Except.error 4
  | Except.ok cols =>
    match cols.gtin with
    | none => Except.error 5
    | some g =>
      if g = "" then Except.error 5
      else
        match first_gtin_match df g gtin with
        | none => Except.error 6
        | some row =>
          match normalize (cellAt df.columns row cols.product),
                normalize (cellAt df.columns row cols.color) with
          | some p, some c => Except.ok (p, c)
          | _, _ => Except.error 7

/-- The CLI path's lookup followed by the same `check` call (app.py line 440). -/
def cli_check (df : DataFrame) (gtin : String) :
    Except Nat (Except ResolveError (String × ImageData)) :=
  match cli_lookup df gtin with
  | Except.error e => Except.error e
  | Except.ok (p, c) => Except.ok (check df p c)

/-! ## General helper lemmas -/

/-- `find?` only looks at the predicate's values on the list's elements. -/
theorem find_q_congr {α : Type} (l : List α) {p q : α → Bool}
    (h : ∀ x ∈ l, p x = q x) : l.find? p = l.find? q := by
  induction l with
  | nil => rfl
  | cons a tl ih =>
    simp only [List.find?_cons]
    rw [h a (List.mem_cons_self a tl),
      ih (fun x hx => h x (List.mem_cons_of_mem a hx))]

/-- `filterMap` only looks at the function's values on the list's elements. -/
theorem filterMap_congr_on {α β : Type} (l : List α) {f g : α → Option β}
    (h : ∀ x ∈ l, f x = g x) : l.filterMap f = l.filterMap g := by
  induction l with
  | nil => rfl
  | cons a tl ih =>
    simp only [List.filterMap_cons]
    rw [h a (List.mem_cons_self a tl),
      ih (fun x hx => h x (List.mem_cons_of_mem a hx))]

/-- A `filterMap` keeps every element exactly when `f` is `some` everywhere. -/
theorem length_filterMap_eq_iff {α β : Type} {f : α → Option β} :
    ∀ {l : List α}, (l.filterMap f).length = l.length ↔ ∀ a ∈ l, (f a).isSome
  | [] => by simp
  | a :: l => by
    cases hfa : f a with
    | none =>
      simp only [List.filterMap_cons, hfa, List.length_cons]
      constructor
      · intro h
        have hle := List.length_filterMap_le f l
        omega
      · intro h
        have := h a (List.mem_cons_self a l)
        rw [hfa] at this
        simp at this
    | some b =>
      simp only [List.filterMap_cons, hfa, List.length_cons, Nat.add_right_cancel_iff]
      rw [length_filterMap_eq_iff]
      constructor
      · intro h x hx
        cases List.mem_cons.mp hx with
        | inl hxa => rw [hxa, hfa]; rfl
        | inr hxl => exact h x hxl
      · intro h x hx
        exact h x (List.mem_cons_of_mem a hx)

/-- A deduplicated list has one element exactly when the list is a nonempty
constant list. -/
theorem dedup_length_eq_one {α : Type} [DecidableEq α] {l : List α} :
    l.dedup.length = 1 ↔ l ≠ [] ∧ ∃ s, ∀ x ∈ l, x = s := by
  rw [List.length_eq_one]
  constructor
  · rintro ⟨a, ha⟩
    refine ⟨?_, a, ?_⟩
    · rintro rfl
      simp [List.dedup_nil] at ha
    · intro x hx
      have : x ∈ l.dedup := List.mem_dedup.mpr hx
      rw [ha] at this
      simpa using this
  · rintro ⟨hne, s, hs⟩
    refine ⟨s, ?_⟩
    have hnd := l.nodup_dedup
    have hall : ∀ x ∈ l.dedup, x = s := fun x hx => hs x (List.mem_dedup.mp hx)
    have hmem : s ∈ l.dedup := by
      obtain ⟨y, hy⟩ := List.exists_mem_of_ne_nil l hne
      have := hs y hy
      subst this
      exact List.mem_dedup.mpr hy
    cases hdd : l.dedup with
    | nil => rw [hdd] at hmem; simp at hmem
    | cons y ys =>
      rw [hdd] at hall hmem hnd
      have hy : y = s := hall y (List.mem_cons_self y ys)
      subst hy
      have hys : ys = [] := by
        rw [List.eq_nil_iff_forall_not_mem]
        intro x hx
        have hxy : x = y := hall x (List.mem_cons_of_mem y hx)
        subst hxy
        exact (List.nodup_cons.mp hnd).1 hx
      rw [hys]

/-- `findIdx?` returns `some i` exactly when position `i` is the first hit,
phrased with `getD`. -/
theorem findIdx_q_eq_some_iff {α : Type} (p : α → Bool) (l : List α) (d : α) (i : Nat) :
    l.findIdx? p = some i ↔
      i < l.length ∧ p (l.getD i d) = true ∧ ∀ j, j < i → p (l.getD j d) = false := by
  rw [List.findIdx?_eq_some_iff_getElem]
  constructor
  · rintro ⟨h, hp, hj⟩
    refine ⟨h, ?_, ?_⟩
    · rw [List.getD_eq_getElem?_getD, List.getElem?_eq_getElem h]
      exact hp
    · intro j hji
      have hjl : j < l.length := Nat.lt_trans hji h
      rw [List.getD_eq_getElem?_getD, List.getElem?_eq_getElem hjl]
      simpa using hj j hji
  · rintro ⟨h, hp, hj⟩
    refine ⟨h, ?_, ?_⟩
    · rw [List.getD_eq_getElem?_getD, List.getElem?_eq_getElem h] at hp
      exact hp
    · intro j hji
      have hjl : j < l.length := Nat.lt_trans hji h
      have := hj j hji
      rw [List.getD_eq_getElem?_getD, List.getElem?_eq_getElem hjl] at this
      simpa using this

/-! ## Facts about the embedded helpers -/

/-- `normalize` never produces the empty string, so Python truthiness of a
normalized value is just presence. -/
theorem truthy_normalize (c : Cell) : truthy (normalize c) = (normalize c).isSome := by
  cases c with
  | none => rfl
  | some s =>
    simp only [normalize]
    by_cases h : pyStrip s = "" <;> simp [h, truthy]

/-- The spec-side "first non-blank value": the first `some` in the list. -/
def first_some (vals : List (Option String)) : Option String :=
  (vals.find? Option.isSome).join

/-- On normalized values, the Python truthiness scan equals the first-`some` scan. -/
theorem first_truthy_map_normalize (cells : List Cell) :
    first_truthy (cells.map normalize) = first_some (cells.map normalize) := by
  unfold first_truthy first_some
  rw [find_q_congr (cells.map normalize)]
  intro x hx
  obtain ⟨c, _, rfl⟩ := List.mem_map.mp hx
  exact truthy_normalize c

/-- Re-testing the result of a `first_truthy` scan for truthiness changes nothing. -/
theorem first_truthy_guard (vals : List (Option String)) :
    (if truthy (first_truthy vals) then first_truthy vals else none) = first_truthy vals := by
  unfold first_truthy
  cases h : vals.find? truthy with
  | none => rfl
  | some x =>
    have := List.find?_some h
    cases x with
    | none => simp [truthy] at this
    | some s => simp [Option.join, this]

/-- A resolved column is one of the table's columns. -/
theorem pick_mem {columns : List String} {d m r : String}
    (h : pick columns d m = some r) : r ∈ columns := by
  unfold pick at h
  split_ifs at h with h1 h2
  · cases h; exact List.elem_iff.mp h1
  · cases h; exact List.elem_iff.mp h2
  · exact List.mem_of_find?_eq_some h

/-- A resolved column is the display label, the machine label, or a column
starting with the machine label. -/
theorem pick_cases {columns : List String} {d m r : String}
    (h : pick columns d m = some r) :
    r = d ∨ r = m ∨ pyStartsWith r m = true := by
  unfold pick at h
  split_ifs at h with h1 h2
  · cases h; exact Or.inl rfl
  · cases h; exact Or.inr (Or.inl rfl)
  · have hr := List.find?_some h
    exact Or.inr (Or.inr hr)

/-- When both labels are nonempty, a resolved column name is nonempty. -/
theorem pick_ne_empty {columns : List String} {d m r : String}
    (hd : d ≠ "") (hm : m ≠ "") (h : pick columns d m = some r) : r ≠ "" := by
  rcases pick_cases h with rfl | rfl | hsw
  · exact hd
  · exact hm
  · rintro rfl
    unfold pyStartsWith at hsw
    cases hmd : m.data with
    | nil => exact hm (by cases m; simp at hmd; simp [hmd])
    | cons a as => rw [hmd] at hsw; simp [List.isPrefixOf] at hsw

/-- The fields of a successful column resolution are the five `pick` results. -/
theorem resolve_ok_pick {df : DataFrame} {cols : ResolvedCols}
    (h : resolve_column_names df = Except.ok cols) :
    pick df.columns DISPLAY_PRODUCT_NAME MACHINE_PRODUCT_NAME = some cols.product ∧
    pick df.columns DISPLAY_COLOR MACHINE_COLOR = some cols.color ∧
    pick df.columns DISPLAY_MAIN_IMAGE MACHINE_MAIN_IMAGE = some cols.main ∧
    cols.swatch = pick df.columns DISPLAY_SWATCH MACHINE_SWATCH ∧
    cols.gtin = pick df.columns DISPLAY_GTIN MACHINE_GTIN := by
  unfold resolve_column_names at h
  cases hp : pick df.columns DISPLAY_PRODUCT_NAME MACHINE_PRODUCT_NAME with
  | none => rw [hp] at h; simp at h
  | some p =>
    cases hc : pick df.columns DISPLAY_COLOR MACHINE_COLOR with
    | none => rw [hp, hc] at h; simp at h
    | some c =>
      cases hm : pick df.columns DISPLAY_MAIN_IMAGE MACHINE_MAIN_IMAGE with
      | none => rw [hp, hc, hm] at h; simp at h
      | some m =>
        rw [hp, hc, hm] at h
        simp only [Except.ok.injEq] at h
        subst h
        exact ⟨rfl, rfl, rfl, rfl, rfl⟩

/-! ## C1 — column validity -/

/-- C1: `column_valid` returns true if and only if every cell normalizes to
blank (`none`), or every cell normalizes to one and the same non-blank value;
any mixed blank/non-blank pattern and any pair of differing non-blank values
makes it false. -/
theorem column_valid_iff_blank_or_constant (series : List Cell) :
    column_valid series = true ↔
      (∀ v ∈ series, normalize v = none) ∨
      ∃ s : String, ∀ v ∈ series, normalize v = some s := by
  have hfm : (series.map normalize).filterMap id = series.filterMap normalize := by
    rw [List.filterMap_map]
    rfl
  simp only [column_valid]
  rw [hfm]
  by_cases h0 : (series.filterMap normalize).length = 0
  · rw [if_pos h0]
    simp only [true_iff]
    left
    intro v hv
    have hnil : series.filterMap normalize = [] := List.length_eq_zero.mp h0
    exact List.filterMap_eq_nil_iff.mp hnil v hv
  · rw [if_neg h0]
    have hne : series.filterMap normalize ≠ [] := by
      intro hnil
      exact h0 (by rw [hnil]; rfl)
    by_cases hlen : (series.filterMap normalize).length ≠ (series.map normalize).length
    · rw [if_pos hlen]
      simp only [Bool.false_eq_true, false_iff, not_or]
      constructor
      · intro hall
        obtain ⟨b, hb⟩ := List.exists_mem_of_ne_nil _ hne
        obtain ⟨v, hv, hnv⟩ := List.mem_filterMap.mp hb
        rw [hall v hv] at hnv
        exact Option.noConfusion hnv
      · rintro ⟨s, hs⟩
        apply hlen
        rw [List.length_map]
        exact length_filterMap_eq_iff.mpr (fun a ha => by rw [hs a ha]; rfl)
    · rw [if_neg hlen]
      push_neg at hlen
      rw [List.length_map] at hlen
      have hsome : ∀ a ∈ series, (normalize a).isSome :=
        length_filterMap_eq_iff.mp hlen
      rw [beq_iff_eq, dedup_length_eq_one]
      constructor
      · rintro ⟨-, s, hs⟩
        right
        refine ⟨s, fun v hv => ?_⟩
        obtain ⟨t, ht⟩ := Option.isSome_iff_exists.mp (hsome v hv)
        have : t ∈ series.filterMap normalize := List.mem_filterMap.mpr ⟨v, hv, ht⟩
        rw [ht, hs t this]
      · rintro (hall | ⟨s, hs⟩)
        · exfalso
          obtain ⟨b, hb⟩ := List.exists_mem_of_ne_nil _ hne
          obtain ⟨v, hv, hnv⟩ := List.mem_filterMap.mp hb
          rw [hall v hv] at hnv
          exact Option.noConfusion hnv
        · refine ⟨hne, s, fun x hx => ?_⟩
          obtain ⟨v, hv, hnv⟩ := List.mem_filterMap.mp hx
          rw [hs v hv] at hnv
          exact (Option.some.injEq _ _).mp hnv.symm

/-! ## C9 — row filtering is idempotent -/

/-- C9: applying the row filter to its own output yields the same table (same
rows, same order) as applying it once. -/
theorem drop_non_data_rows_idempotent (df : DataFrame) (color_col image_col : String) :
    drop_non_data_rows (drop_non_data_rows df color_col image_col) color_col image_col =
      drop_non_data_rows df color_col image_col := by
  unfold drop_non_data_rows
  simp only [List.filter_filter]
  refine congrArg (DataFrame.mk df.columns) ?_
  exact List.filter_congr (fun x _ => Bool.and_self _)

/-! ## C3 — the row filter -/

/-- C3 (amended): the row filter preserves the header, keeps rows as an
order-preserving sublist, and excludes exactly the rows whose trimmed
`astype(str)` color/image views hit a header label, a documentation-phrase
beginning, or are both the empty string.  A missing cell's view is "nan", so a
row that is blank per `normalize` (both cells missing) is kept, not excluded. -/
theorem drop_non_data_rows_spec (df : DataFrame) (color_col image_col : String) :
    (drop_non_data_rows df color_col image_col).columns = df.columns ∧
    List.Sublist (drop_non_data_rows df color_col image_col).rows df.rows ∧
    (drop_non_data_rows df color_col image_col).rows =
      df.rows.filter (fun r =>
        let sc := strView (cellAt df.columns r color_col)
        let si := strView (cellAt df.columns r image_col)
        !((sc == DISPLAY_COLOR || sc == MACHINE_COLOR ||
           si == DISPLAY_MAIN_IMAGE || si == MACHINE_MAIN_IMAGE) ||
          (pyStartsWith si DOC_PHRASES_IMAGE || pyStartsWith sc DOC_PHRASES_COLOR) ||
          (sc == "" && si == ""))) := by
  refine ⟨rfl, List.filter_sublist _, ?_⟩
  unfold drop_non_data_rows
  dsimp only
  apply List.filter_congr
  intro r _
  simp only [row_dropped, row_is_header_like, row_is_doc_row, row_is_blank_row,
    Bool.or_assoc]

/-- The input of the C3 counterexample: a table whose one row has a missing
(NaN) color cell and a missing main-image cell. -/
def dfC3 : DataFrame :=
  { columns := ["Color", "Main Image URL"], rows := [[none, none]] }

/-- C3 counterexample: both cells of the row are blank per `normalize` (the
single definition of blank), yet `drop_non_data_rows` keeps the row — pandas
`astype(str)` renders a missing cell as "nan", so the code's blank-row test
(`== ""`) does not fire. -/
theorem drop_non_data_rows_missing_blank_counterexample :
    normalize (cellAt dfC3.columns [none, none] "Color") = none ∧
    normalize (cellAt dfC3.columns [none, none] "Main Image URL") = none ∧
    (drop_non_data_rows dfC3 "Color" "Main Image URL").rows = [[none, none]] :=
  ⟨rfl, rfl, rfl⟩

/-! ## C4 — the header locator -/

/-- An in-range `getD` is a member of the list. -/
theorem getD_mem {α : Type} {l : List α} {i : Nat} (d : α) (h : i < l.length) :
    l.getD i d ∈ l := by
  rw [List.getD_eq_getElem?_getD, List.getElem?_eq_getElem h]
  exact List.getElem_mem h

/-- `findIdx?` hits are unique: any first-hit position equals the returned one. -/
theorem findIdx_q_unique {α : Type} {p : α → Bool} {l : List α} {d : α} {k i : Nat}
    (hk : l.findIdx? p = some k)
    (_hi : i < l.length) (hp : p (l.getD i d) = true)
    (hj : ∀ j, j < i → p (l.getD j d) = false) : k = i := by
  obtain ⟨hkl, hpk, hjk⟩ := (findIdx_q_eq_some_iff p l d k).mp hk
  rcases Nat.lt_trichotomy k i with h | h | h
  · have hf := hj k h
    rw [hf] at hpk
    exact absurd hpk (by simp)
  · exact h
  · have hf := hjk i h
    rw [hp] at hf
    exact absurd hf (by simp)

/-- C4: the header locator returns the index of the first raw row whose trimmed
stringified values include every required label; failing that, the index of the
first row containing the machine main-image label; failing both, a
header-not-located error.  As a pure function of the grid it is deterministic. -/
theorem find_header_row_spec (grid : Grid) (must_include : List String) :
    (∀ i : Nat, find_header_row_by_labels grid must_include = Except.ok i ↔
      ((i < grid.length ∧ row_has_labels must_include (grid.getD i []) = true ∧
          ∀ j, j < i → row_has_labels must_include (grid.getD j []) = false) ∨
       ((∀ row ∈ grid, row_has_labels must_include row = false) ∧
        i < grid.length ∧ row_has_fallback (grid.getD i []) = true ∧
          ∀ j, j < i → row_has_fallback (grid.getD j []) = false))) ∧
    ((∃ e, find_header_row_by_labels grid must_include = Except.error e) ↔
      ((∀ row ∈ grid, row_has_labels must_include row = false) ∧
       (∀ row ∈ grid, row_has_fallback row = false))) := by
  unfold find_header_row_by_labels
  cases hP : grid.findIdx? (row_has_labels must_include) with
  | some k =>
    have hk := (findIdx_q_eq_some_iff (row_has_labels must_include) grid [] k).mp hP
    constructor
    · intro i
      constructor
      · intro h
        simp only [Except.ok.injEq] at h
        subst h
        exact Or.inl hk
      · rintro (⟨hi, hp, hj⟩ | ⟨hnone, -⟩)
        · have := findIdx_q_unique hP hi hp hj
          rw [this]
        · exfalso
          obtain ⟨hkl, hpk, -⟩ := hk
          have := hnone (grid.getD k []) (getD_mem [] hkl)
          rw [this] at hpk
          exact absurd hpk (by simp)
    · constructor
      · rintro ⟨e, he⟩
        exact Except.noConfusion he
      · rintro ⟨hnoP, -⟩
        have : grid.findIdx? (row_has_labels must_include) = none :=
          List.findIdx?_eq_none_iff.mpr hnoP
        rw [this] at hP
        exact Option.noConfusion hP
  | none =>
    have hnoP : ∀ row ∈ grid, row_has_labels must_include row = false :=
      List.findIdx?_eq_none_iff.mp hP
    cases hF : grid.findIdx? row_has_fallback with
    | some k =>
      have hk := (findIdx_q_eq_some_iff row_has_fallback grid [] k).mp hF
      constructor
      · intro i
        constructor
        · intro h
          simp only [Except.ok.injEq] at h
          subst h
          exact Or.inr ⟨hnoP, hk⟩
        · rintro (⟨hi, hp, -⟩ | ⟨-, hi, hp, hj⟩)
          · exfalso
            have := hnoP (grid.getD i []) (getD_mem [] hi)
            rw [this] at hp
            exact absurd hp (by simp)
          · have := findIdx_q_unique hF hi hp hj
            rw [this]
      · constructor
        · rintro ⟨e, he⟩
          exact Except.noConfusion he
        · rintro ⟨-, hnoF⟩
          have : grid.findIdx? row_has_fallback = none :=
            List.findIdx?_eq_none_iff.mpr hnoF
          rw [this] at hF
          exact Option.noConfusion hF
    | none =>
      have hnoF : ∀ row ∈ grid, row_has_fallback row = false :=
        List.findIdx?_eq_none_iff.mp hF
      constructor
      · intro i
        constructor
        · intro h
          exact Except.noConfusion h
        · rintro (⟨hi, hp, -⟩ | ⟨-, hi, hp, -⟩)
          · have := hnoP (grid.getD i []) (getD_mem [] hi)
            rw [this] at hp
            exact absurd hp (by simp)
          · have := hnoF (grid.getD i []) (getD_mem [] hi)
            rw [this] at hp
            exact absurd hp (by simp)
      · exact ⟨fun _ => ⟨hnoP, hnoF⟩, fun _ => ⟨_, rfl⟩⟩

/-! ## C5 — column resolution -/

/-- C5: each role resolves by exact display label, else exact machine label,
else the first column starting with the machine label; resolution fails — with
the missing display names and the available columns — exactly when product,
color, or main-image resolves to nothing, while swatch and gtin stay optional. -/
theorem resolve_column_names_spec (df : DataFrame) :
    (∀ d m : String,
      (d ∈ df.columns → pick df.columns d m = some d) ∧
      (d ∉ df.columns → m ∈ df.columns → pick df.columns d m = some m) ∧
      (d ∉ df.columns → m ∉ df.columns → ∀ r : String,
        (pick df.columns d m = some r ↔
          ∃ pre post, df.columns = pre ++ r :: post ∧ pyStartsWith r m = true ∧
            ∀ x ∈ pre, pyStartsWith x m = false))) ∧
    ((∃ e, resolve_column_names df = Except.error e) ↔
      (pick df.columns DISPLAY_PRODUCT_NAME MACHINE_PRODUCT_NAME = none ∨
       pick df.columns DISPLAY_COLOR MACHINE_COLOR = none ∨
       pick df.columns DISPLAY_MAIN_IMAGE MACHINE_MAIN_IMAGE = none)) ∧
    (∀ e, resolve_column_names df = Except.error e →
      e.missing = missingOf (pick df.columns DISPLAY_PRODUCT_NAME MACHINE_PRODUCT_NAME)
          (pick df.columns DISPLAY_COLOR MACHINE_COLOR)
          (pick df.columns DISPLAY_MAIN_IMAGE MACHINE_MAIN_IMAGE) ∧
      e.missing ≠ [] ∧ e.available = df.columns) ∧
    (∀ cols, resolve_column_names df = Except.ok cols →
      pick df.columns DISPLAY_PRODUCT_NAME MACHINE_PRODUCT_NAME = some cols.product ∧
      pick df.columns DISPLAY_COLOR MACHINE_COLOR = some cols.color ∧
      pick df.columns DISPLAY_MAIN_IMAGE MACHINE_MAIN_IMAGE = some cols.main ∧
      cols.swatch = pick df.columns DISPLAY_SWATCH MACHINE_SWATCH ∧
      cols.gtin = pick df.columns DISPLAY_GTIN MACHINE_GTIN) := by
  refine ⟨?_, ?_, ?_, fun cols h => resolve_ok_pick h⟩
  · intro d m
    refine ⟨?_, ?_, ?_⟩
    · intro hd
      unfold pick
      rw [if_pos (List.elem_iff.mpr hd)]
    · intro hd hm
      unfold pick
      rw [if_neg (fun h => hd (List.elem_iff.mp h)), if_pos (List.elem_iff.mpr hm)]
    · intro hd hm r
      unfold pick
      rw [if_neg (fun h => hd (List.elem_iff.mp h)), if_neg (fun h => hm (List.elem_iff.mp h))]
      rw [List.find?_eq_some]
      constructor
      · rintro ⟨hpr, pre, post, heq, hall⟩
        exact ⟨pre, post, heq, hpr, fun x hx => by simpa using hall x hx⟩
      · rintro ⟨pre, post, heq, hpr, hall⟩
        exact ⟨hpr, pre, post, heq, fun x hx => by simpa using hall x hx⟩
  · cases hp : pick df.columns DISPLAY_PRODUCT_NAME MACHINE_PRODUCT_NAME <;>
      cases hc : pick df.columns DISPLAY_COLOR MACHINE_COLOR <;>
        cases hm : pick df.columns DISPLAY_MAIN_IMAGE MACHINE_MAIN_IMAGE <;>
          simp [resolve_column_names, hp, hc, hm]
  · intro e he
    cases hp : pick df.columns DISPLAY_PRODUCT_NAME MACHINE_PRODUCT_NAME <;>
      cases hc : pick df.columns DISPLAY_COLOR MACHINE_COLOR <;>
        cases hm : pick df.columns DISPLAY_MAIN_IMAGE MACHINE_MAIN_IMAGE <;>
          simp only [resolve_column_names, hp, hc, hm] at he <;>
          first
          | exact Except.noConfusion he
          | · rw [Except.error.injEq] at he
              subst he
              simp [missingOf, hp, hc, hm]

/-! ## C2 — verdict priority of `check` -/

instance {ε α : Type} [DecidableEq ε] [DecidableEq α] : DecidableEq (Except ε α) := fun x y =>
  match x, y with
  | Except.ok a, Except.ok b =>
    if h : a = b then isTrue (by rw [h]) else isFalse (fun hh => h (Except.ok.inj hh))
  | Except.error a, Except.error b =>
    if h : a = b then isTrue (by rw [h]) else isFalse (fun hh => h (Except.error.inj hh))
  | Except.ok _, Except.error _ => isFalse (fun hh => Except.noConfusion hh)
  | Except.error _, Except.ok _ => isFalse (fun hh => Except.noConfusion hh)

theorem drop_columns (df : DataFrame) (a b : String) :
    (drop_non_data_rows df a b).columns = df.columns := rfl

theorem select_rows_rows (df : DataFrame) (col t : String) :
    (select_rows df col t).rows = df.rows.filter (stripped_eq df.columns col t) := rfl

/-- A successfully resolved swatch column is a nonempty name of the table. -/
theorem resolve_ok_swatch {df : DataFrame} {cols : ResolvedCols}
    (hres : resolve_column_names df = Except.ok cols) :
    ∀ sw, cols.swatch = some sw → sw ≠ "" ∧ sw ∈ df.columns := by
  obtain ⟨-, -, -, hsw, -⟩ := resolve_ok_pick hres
  intro sw h
  rw [h] at hsw
  exact ⟨pick_ne_empty (by decide) (by decide) hsw.symm, pick_mem hsw.symm⟩

/-- `images_invalid` is true exactly when one of the given (present) columns
fails `column_valid`. -/
theorem images_invalid_iff (L : List String) (df_pc : DataFrame)
    (hmem : ∀ c0 ∈ L, c0 ∈ df_pc.columns) :
    images_invalid L df_pc = true ↔
      ∃ c0 ∈ L, column_valid (getCol df_pc c0) = false := by
  unfold images_invalid
  rw [List.any_eq_true]
  constructor
  · rintro ⟨c0, hc0, hcond⟩
    rw [Bool.and_eq_true] at hcond
    obtain ⟨-, hval⟩ := hcond
    exact ⟨c0, hc0, by simpa using hval⟩
  · rintro ⟨c0, hc0, hval⟩
    refine ⟨c0, hc0, ?_⟩
    rw [Bool.and_eq_true]
    exact ⟨List.elem_iff.mpr (hmem c0 hc0), by rw [hval]; rfl⟩

/-- `images_invalid` is false exactly when every given (present) column passes
`column_valid`. -/
theorem images_invalid_eq_false_iff (L : List String) (df_pc : DataFrame)
    (hmem : ∀ c0 ∈ L, c0 ∈ df_pc.columns) :
    images_invalid L df_pc = false ↔
      ∀ c0 ∈ L, column_valid (getCol df_pc c0) = true := by
  rw [← Bool.not_eq_true, images_invalid_iff L df_pc hmem]
  push_neg
  constructor
  · intro h c0 hc0
    have hne := h c0 hc0
    revert hne
    cases column_valid (getCol df_pc c0) <;> simp
  · intro h c0 hc0
    rw [h c0 hc0]
    exact Bool.noConfusion

/-- `swatch_invalid` is true exactly when a swatch column is resolved and fails
`column_valid`. -/
theorem swatch_invalid_iff (df_pc : DataFrame) (cols : ResolvedCols)
    (hsw : ∀ sw, cols.swatch = some sw → sw ≠ "" ∧ sw ∈ df_pc.columns) :
    swatch_invalid df_pc cols = true ↔
      ∃ sw, cols.swatch = some sw ∧ column_valid (getCol df_pc sw) = false := by
  unfold swatch_invalid
  cases h : cols.swatch with
  | none =>
    simp
  | some sw =>
    obtain ⟨hne, hmem⟩ := hsw sw h
    simp only [Bool.and_eq_true]
    constructor
    · rintro ⟨⟨-, -⟩, hval⟩
      exact ⟨sw, rfl, by simpa using hval⟩
    · rintro ⟨sw', hsw', hval⟩
      have hss : sw' = sw := by
        injection hsw' with hs
        exact hs.symm
      subst hss
      refine ⟨⟨?_, List.elem_iff.mpr hmem⟩, ?_⟩
      · simpa [bne] using hne
      · rw [hval]
        rfl

/-- C2's conclusion: the five verdicts of `check`, in their fixed priority, each
with an empty payload except `same`, whose payload is the assembled image data
of the selected product-color group. -/
def verdict_priority_holds (df : DataFrame) (product_name color : String)
    (cols : ResolvedCols) : Prop :=
  ((∀ r ∈ (drop_non_data_rows df cols.color cols.main).rows,
      strView (cellAt df.columns r cols.product) ≠ pyStrip product_name) →
    check df product_name color = Except.ok ("product not found", ImageData.empty)) ∧
  ((select_rows (drop_non_data_rows df cols.color cols.main) cols.product
      product_name).rows ≠ [] →
   (∀ r ∈ (select_rows (drop_non_data_rows df cols.color cols.main) cols.product
      product_name).rows,
      strView (cellAt df.columns r cols.color) ≠ pyStrip color) →
    check df product_name color = Except.ok ("color not there", ImageData.empty)) ∧
  ((group_rows df cols product_name color).rows ≠ [] →
   (∃ c0 ∈ cols.main ::
        get_additional_columns (drop_non_data_rows df cols.color cols.main),
      column_valid (getCol (group_rows df cols product_name color) c0) = false) →
    check df product_name color = Except.ok ("something is wrong", ImageData.empty)) ∧
  ((group_rows df cols product_name color).rows ≠ [] →
   (∀ c0 ∈ cols.main ::
        get_additional_columns (drop_non_data_rows df cols.color cols.main),
      column_valid (getCol (group_rows df cols product_name color) c0) = true) →
   (∃ sw, cols.swatch = some sw ∧
      column_valid (getCol (group_rows df cols product_name color) sw) = false) →
    check df product_name color = Except.ok ("swatch is wrong", ImageData.empty)) ∧
  ((group_rows df cols product_name color).rows ≠ [] →
   (∀ c0 ∈ cols.main ::
        get_additional_columns (drop_non_data_rows df cols.color cols.main),
      column_valid (getCol (group_rows df cols product_name color) c0) = true) →
   (∀ sw, cols.swatch = some sw →
      column_valid (getCol (group_rows df cols product_name color) sw) = true) →
    check df product_name color =
      Except.ok ("same", build_image_data (group_rows df cols product_name color) cols))

/-- C2 (amended): when columns resolve, `check` evaluates its verdicts in the
fixed priority — product not found, color not there, something is wrong, swatch
is wrong, same — with row matching done on trimmed `astype(str)` views (a
missing cell reads "nan"), and an empty payload on every verdict but `same`. -/
theorem check_verdict_priority (df : DataFrame) (product_name color : String)
    (cols : ResolvedCols) (hres : resolve_column_names df = Except.ok cols) :
    verdict_priority_holds df product_name color cols := by
  obtain ⟨hpp, hpc, hpm, hpsw, hpg⟩ := resolve_ok_pick hres
  have hmm : cols.main ∈ df.columns := pick_mem hpm
  have hswf : ∀ sw, cols.swatch = some sw → sw ≠ "" ∧ sw ∈ df.columns :=
    resolve_ok_swatch hres
  have hmemall : ∀ c0 ∈ cols.main ::
      get_additional_columns (drop_non_data_rows df cols.color cols.main),
      c0 ∈ df.columns := by
    intro c0 hc0
    rcases List.mem_cons.mp hc0 with rfl | hadd
    · exact hmm
    · exact List.mem_of_mem_filter hadd
  unfold verdict_priority_holds
  refine ⟨?_, ?_, ?_, ?_, ?_⟩
  · intro H1
    have hempty : (select_rows (drop_non_data_rows df cols.color cols.main)
        cols.product product_name).rows.isEmpty = true := by
      rw [List.isEmpty_iff, select_rows_rows, List.filter_eq_nil_iff]
      intro r hr habs
      exact H1 r hr (by simpa [stripped_eq] using habs)
    simp only [check, hres]
    rw [if_pos hempty]
  · intro hne H2
    have hne1 : ¬((select_rows (drop_non_data_rows df cols.color cols.main)
        cols.product product_name).rows.isEmpty = true) := by
      rw [List.isEmpty_iff]
      exact hne
    have hempty2 : (select_rows (select_rows (drop_non_data_rows df cols.color cols.main)
        cols.product product_name) cols.color color).rows.isEmpty = true := by
      rw [List.isEmpty_iff, select_rows_rows, List.filter_eq_nil_iff]
      intro r hr habs
      exact H2 r hr (by simpa [stripped_eq] using habs)
    simp only [check, hres]
    rw [if_neg hne1, if_pos hempty2]
  · intro hne3 hex
    have hne2 : ¬((select_rows (select_rows (drop_non_data_rows df cols.color cols.main)
        cols.product product_name) cols.color color).rows.isEmpty = true) := by
      rw [List.isEmpty_iff]
      exact hne3
    have hne1 : ¬((select_rows (drop_non_data_rows df cols.color cols.main)
        cols.product product_name).rows.isEmpty = true) := by
      rw [List.isEmpty_iff, select_rows_rows]
      intro h
      apply hne3
      show (select_rows (select_rows (drop_non_data_rows df cols.color cols.main)
        cols.product product_name) cols.color color).rows = []
      rw [select_rows_rows]
      have : (select_rows (drop_non_data_rows df cols.color cols.main)
          cols.product product_name).rows = [] := h
      rw [this]
      rfl
    have himg : images_invalid (cols.main ::
        get_additional_columns (drop_non_data_rows df cols.color cols.main))
        (group_rows df cols product_name color) = true :=
      (images_invalid_iff _ (group_rows df cols product_name color) hmemall).mpr hex
    unfold group_rows at himg
    simp only [check, hres]
    rw [if_neg hne1, if_neg hne2, if_pos himg]
  · intro hne3 hall hsw
    have hne2 : ¬((select_rows (select_rows (drop_non_data_rows df cols.color cols.main)
        cols.product product_name) cols.color color).rows.isEmpty = true) := by
      rw [List.isEmpty_iff]
      exact hne3
    have hne1 : ¬((select_rows (drop_non_data_rows df cols.color cols.main)
        cols.product product_name).rows.isEmpty = true) := by
      rw [List.isEmpty_iff, select_rows_rows]
      intro h
      apply hne3
      show (select_rows (select_rows (drop_non_data_rows df cols.color cols.main)
        cols.product product_name) cols.color color).rows = []
      rw [select_rows_rows]
      have : (select_rows (drop_non_data_rows df cols.color cols.main)
          cols.product product_name).rows = [] := h
      rw [this]
      rfl
    have himg : images_invalid (cols.main ::
        get_additional_columns (drop_non_data_rows df cols.color cols.main))
        (group_rows df cols product_name color) = false :=
      (images_invalid_eq_false_iff _ (group_rows df cols product_name color) hmemall).mpr hall
    have hswt : swatch_invalid (group_rows df cols product_name color) cols = true :=
      (swatch_invalid_iff (group_rows df cols product_name color) cols hswf).mpr hsw
    unfold group_rows at himg hswt
    simp only [check, hres]
    rw [if_neg hne1, if_neg hne2, if_neg (by rw [himg]; exact Bool.noConfusion),
      if_pos hswt]
  · intro hne3 hall hswall
    have hne2 : ¬((select_rows (select_rows (drop_non_data_rows df cols.color cols.main)
        cols.product product_name) cols.color color).rows.isEmpty = true) := by
      rw [List.isEmpty_iff]
      exact hne3
    have hne1 : ¬((select_rows (drop_non_data_rows df cols.color cols.main)
        cols.product product_name).rows.isEmpty = true) := by
      rw [List.isEmpty_iff, select_rows_rows]
      intro h
      apply hne3
      show (select_rows (select_rows (drop_non_data_rows df cols.color cols.main)
        cols.product product_name) cols.color color).rows = []
      rw [select_rows_rows]
      have : (select_rows (drop_non_data_rows df cols.color cols.main)
          cols.product product_name).rows = [] := h
      rw [this]
      rfl
    have himg : images_invalid (cols.main ::
        get_additional_columns (drop_non_data_rows df cols.color cols.main))
        (group_rows df cols product_name color) = false :=
      (images_invalid_eq_false_iff _ (group_rows df cols product_name color) hmemall).mpr hall
    have hswt : swatch_invalid (group_rows df cols product_name color) cols = false := by
      unfold swatch_invalid
      cases h : cols.swatch with
      | none => rfl
      | some sw =>
        have hv := hswall sw h
        simp [hv]
    unfold group_rows at himg hswt
    simp only [check, hres]
    rw [if_neg hne1, if_neg hne2, if_neg (by rw [himg]; exact Bool.noConfusion),
      if_neg (by rw [hswt]; exact Bool.noConfusion)]
    rfl

/-- The concrete table of the C2 counterexample: the one data row has a missing
(NaN) product cell. -/
def dfNan : DataFrame :=
  { columns := ["Product Name", "Color", "Main Image URL"]
    rows := [[none, some "Red", some "u"]] }

/-- C2 counterexample: with target product "nan", no row's *normalized* product
cell equals the trimmed target (the cell is missing, so it normalizes to
`none`), yet `check` does not return "product not found" — pandas `astype(str)`
renders the missing cell as "nan", which matches the target. -/
theorem check_nan_product_counterexample :
    (∀ r ∈ (drop_non_data_rows dfNan "Color" "Main Image URL").rows,
        normalize (cellAt dfNan.columns r "Product Name") ≠ some (pyStrip "nan")) ∧
    check dfNan "nan" "Red" = Except.ok ("same", { main := some "u" }) ∧
    check dfNan "nan" "Red" ≠ Except.ok ("product not found", ImageData.empty) := by
  refine ⟨by decide, rfl, by decide⟩

/-- The concrete table of the C2 and C7 witnesses. -/
def dfW : DataFrame :=
  { columns := ["Product Name", "Color", "Main Image URL"]
    rows := [[some "P", some "Red", some "u"]] }

/-- The resolved columns of `dfW`. -/
def colsW : ResolvedCols :=
  { product := "Product Name", color := "Color", main := "Main Image URL"
    swatch := none, gtin := none }

/-- C2 witness: the priority conclusion instantiated on a concrete table. -/
theorem check_verdict_priority_witness :
    resolve_column_names dfW = Except.ok colsW ∧
    verdict_priority_holds dfW "P" "Red" colsW :=
  ⟨rfl, check_verdict_priority dfW "P" "Red" colsW rfl⟩

/-! ## C6 — check_excel's error behaviour -/

/-- A concrete workbook whose only sheet is "Sheet1". -/
def wbC6 : Workbook := [("Sheet1", [[some "Main Image URL"]])]

/-- A file system holding exactly one workbook, at "catalog.xlsx". -/
def fsC6 : String → Option Workbook :=
  fun p => if p = "catalog.xlsx" then some wbC6 else none

/-- C6 (code bug witness): the sheet-existence test does detect the missing
sheet and produces its crafted error, but `check_excel` — whose
`except Exception: pass` swallows exactly that error — fails later, inside the
load step, with pandas' own worksheet-not-found error instead; the detected
error never propagates.  A nonexistent path still gives file-not-found. -/
theorem check_excel_sheet_error_swallowed :
    sheet_exists_check wbC6 "Product Content And Site Exp" =
      Except.error EngineError.sheetNotFoundDetected ∧
    check_excel fsC6 "catalog.xlsx" "Product Content And Site Exp" "P" "Red" =
      Except.error EngineError.worksheetNotFoundAtLoad ∧
    check_excel fsC6 "missing.xlsx" "Product Content And Site Exp" "P" "Red" =
      Except.error EngineError.fileNotFound :=
  ⟨rfl, rfl, rfl⟩

/-! ## C10 — GTIN lookup precedes the row filter -/

/-- A table whose first row is a header echo (color cell "Color") carrying the
same GTIN as the genuine data row below it. -/
def dfC10 : DataFrame :=
  { columns := ["Product Name", "Color", "Main Image URL", "Sellable GTIN"]
    rows := [[some "P0", some "Color", some "u0", some "123"],
             [some "P1", some "Red", some "u1", some "123"]] }

/-- C10: both the HTTP route's and the CLI's GTIN lookup select the first
matching row of the unfiltered table — here a header-echo row that
`drop_non_data_rows` would exclude — and extract that row's product and color. -/
theorem gtin_lookup_precedes_row_filter :
    validation_lookup dfC10 "123" = Except.ok ("P0", "Color") ∧
    cli_lookup dfC10 "123" = Except.ok ("P0", "Color") ∧
    dfC10.rows.head? = some [some "P0", some "Color", some "u0", some "123"] ∧
    row_dropped dfC10.columns "Color" "Main Image URL"
      [some "P0", some "Color", some "u0", some "123"] = true ∧
    (drop_non_data_rows dfC10 "Color" "Main Image URL").rows =
      [[some "P1", some "Red", some "u1", some "123"]] :=
  ⟨rfl, rfl, rfl, rfl, rfl⟩

/-! ## C7 — payload assembly -/

/-- Projecting a pair out of a successful `check` result. -/
theorem verdict_inj {s : String} {e : ImageData} {v : String} {d : ImageData}
    (h : (Except.ok (s, e) : Except ResolveError (String × ImageData)) =
      Except.ok (v, d)) :
    v = s ∧ d = e := by
  have h2 := Except.ok.inj h
  rw [Prod.mk.injEq] at h2
  exact ⟨h2.1.symm, h2.2.symm⟩

/-- The assembled payload, written against the spec's description: first
non-blank normalized value per category, keys omitted when absent. -/
theorem build_image_data_spec (df_pc : DataFrame) (cols : ResolvedCols)
    (hmain : cols.main ∈ df_pc.columns)
    (hsw : ∀ sw, cols.swatch = some sw → sw ≠ "" ∧ sw ∈ df_pc.columns) :
    (build_image_data df_pc cols).main =
      first_some ((getCol df_pc cols.main).map normalize) ∧
    (build_image_data df_pc cols).additional =
      (let imgs := (get_additional_columns df_pc).filterMap
          (fun c => first_some ((getCol df_pc c).map normalize));
        if imgs = [] then none else some imgs) ∧
    (build_image_data df_pc cols).swatch =
      (match cols.swatch with
       | some sw => first_some ((getCol df_pc sw).map normalize)
       | none => none) := by
  unfold build_image_data
  refine ⟨?_, ?_, ?_⟩
  · dsimp only
    rw [if_pos (List.elem_iff.mpr hmain)]
    unfold first_image
    rw [first_truthy_guard]
    exact first_truthy_map_normalize _
  · dsimp only
    have himgs : (get_additional_columns df_pc).filterMap
        (fun c =>
          if df_pc.columns.contains c then
            let add_val := first_image df_pc c
            if truthy add_val then add_val else none
          else none) =
        (get_additional_columns df_pc).filterMap
          (fun c => first_some ((getCol df_pc c).map normalize)) := by
      apply filterMap_congr_on
      intro c hc
      have hcmem : c ∈ df_pc.columns := List.mem_of_mem_filter hc
      rw [if_pos (List.elem_iff.mpr hcmem)]
      dsimp only
      unfold first_image
      rw [first_truthy_guard]
      exact first_truthy_map_normalize _
    rw [himgs]
    by_cases hcase : (get_additional_columns df_pc).filterMap
        (fun c => first_some ((getCol df_pc c).map normalize)) = []
    · rw [if_pos (List.isEmpty_iff.mpr hcase), if_pos hcase]
    · rw [if_neg (fun hh => hcase (List.isEmpty_iff.mp hh)), if_neg hcase]
  · dsimp only
    cases h : cols.swatch with
    | none => rfl
    | some sw =>
      obtain ⟨hne, hmem⟩ := hsw sw h
      have hb : (sw != "" && df_pc.columns.contains sw) = true := by
        rw [Bool.and_eq_true]
        exact ⟨by simpa [bne] using hne, List.elem_iff.mpr hmem⟩
      dsimp only
      rw [if_pos hb]
      unfold first_image
      rw [first_truthy_guard]
      exact first_truthy_map_normalize _

/-- C7's conclusion: empty payload on every verdict but `same`; on `same`, the
payload keys are the first non-blank normalized values per category, with
absent categories omitted. -/
def payload_spec_holds (df : DataFrame) (product_name color v : String)
    (d : ImageData) : Prop :=
  (v ≠ "same" → d = ImageData.empty) ∧
  (v = "same" → ∃ cols, resolve_column_names df = Except.ok cols ∧
    d.main = first_some
      ((getCol (group_rows df cols product_name color) cols.main).map normalize) ∧
    d.additional =
      (let imgs := (get_additional_columns (group_rows df cols product_name color)).filterMap
          (fun c => first_some
            ((getCol (group_rows df cols product_name color) c).map normalize));
        if imgs = [] then none else some imgs) ∧
    d.swatch =
      (match cols.swatch with
       | some sw => first_some
          ((getCol (group_rows df cols product_name color) sw).map normalize)
       | none => none))

/-- C7: whenever `check` returns, the payload is empty unless the verdict is
`same`, in which case `main`, `additional` and `swatch` are the first non-blank
normalized values of the group's columns, in row and column-discovery order,
with absent categories omitted entirely. -/
theorem check_same_payload (df : DataFrame) (product_name color v : String)
    (d : ImageData)
    (h : check df product_name color = Except.ok (v, d)) :
    payload_spec_holds df product_name color v d := by
  unfold payload_spec_holds
  cases hres : resolve_column_names df with
  | error e =>
    unfold check at h
    rw [hres] at h
    exact absurd h (by simp)
  | ok cols =>
    unfold check at h
    rw [hres] at h
    dsimp only at h
    by_cases h1 : ((select_rows (drop_non_data_rows df cols.color cols.main)
        cols.product product_name).rows.isEmpty = true)
    · rw [if_pos h1] at h
      obtain ⟨rfl, rfl⟩ := verdict_inj h
      exact ⟨fun _ => rfl, fun hv => absurd hv (by decide)⟩
    · rw [if_neg h1] at h
      by_cases h2 : ((select_rows (select_rows (drop_non_data_rows df cols.color cols.main)
          cols.product product_name) cols.color color).rows.isEmpty = true)
      · rw [if_pos h2] at h
        obtain ⟨rfl, rfl⟩ := verdict_inj h
        exact ⟨fun _ => rfl, fun hv => absurd hv (by decide)⟩
      · rw [if_neg h2] at h
        by_cases h3 : (images_invalid (cols.main ::
            get_additional_columns (drop_non_data_rows df cols.color cols.main))
            (select_rows (select_rows (drop_non_data_rows df cols.color cols.main)
              cols.product product_name) cols.color color) = true)
        · rw [if_pos h3] at h
          obtain ⟨rfl, rfl⟩ := verdict_inj h
          exact ⟨fun _ => rfl, fun hv => absurd hv (by decide)⟩
        · rw [if_neg h3] at h
          by_cases h4 : (swatch_invalid
              (select_rows (select_rows (drop_non_data_rows df cols.color cols.main)
                cols.product product_name) cols.color color) cols = true)
          · rw [if_pos h4] at h
            obtain ⟨rfl, rfl⟩ := verdict_inj h
            exact ⟨fun _ => rfl, fun hv => absurd hv (by decide)⟩
          · rw [if_neg h4] at h
            obtain ⟨rfl, rfl⟩ := verdict_inj h
            refine ⟨fun hne => absurd rfl hne, fun _ => ⟨cols, rfl, ?_, ?_, ?_⟩⟩
            · exact (build_image_data_spec (group_rows df cols product_name color)
                cols (pick_mem (resolve_ok_pick hres).2.2.1)
                (resolve_ok_swatch hres)).1
            · exact (build_image_data_spec (group_rows df cols product_name color)
                cols (pick_mem (resolve_ok_pick hres).2.2.1)
                (resolve_ok_swatch hres)).2.1
            · exact (build_image_data_spec (group_rows df cols product_name color)
                cols (pick_mem (resolve_ok_pick hres).2.2.1)
                (resolve_ok_swatch hres)).2.2

/-- C7 witness: the payload conclusion instantiated on a concrete table. -/
theorem check_same_payload_witness :
    check dfW "P" "Red" = Except.ok ("same", { main := some "u" }) ∧
    payload_spec_holds dfW "P" "Red" "same" { main := some "u" } :=
  ⟨rfl, check_same_payload dfW "P" "Red" "same" { main := some "u" } rfl⟩

/-! ## C8 - GTIN lookup delegates to check -/

/-- C8's conclusion: both lookup variants produce exactly `check df p c`, and
the used row is the first GTIN match in table order. -/
def gtin_delegation_holds (df : DataFrame) (gtin g p c : String)
    (row : List Cell) : Prop :=
  validation_check df gtin = Except.ok (check df p c) ∧
  cli_check df gtin = Except.ok (check df p c) ∧
  ∃ pre post, df.rows = pre ++ row :: post ∧
    strView (cellAt df.columns row g) = pyStrip gtin ∧
    ∀ r ∈ pre, strView (cellAt df.columns r g) ≠ pyStrip gtin

/-- C8: when the GTIN column resolves and the trimmed GTIN matches a row, both
the HTTP route's lookup and the CLI's lookup take the first matching row in
table order, extract its normalized product name and color, and return exactly
the verdict and payload of calling `check` directly with those values. -/
theorem gtin_lookup_delegates_to_check (df : DataFrame) (gtin : String)
    (cols : ResolvedCols) (g : String) (row : List Cell) (p c : String)
    (hres : resolve_column_names df = Except.ok cols)
    (hg : cols.gtin = some g) (hg0 : g ≠ "")
    (hrow : first_gtin_match df g gtin = some row)
    (hp : normalize (cellAt df.columns row cols.product) = some p)
    (hc : normalize (cellAt df.columns row cols.color) = some c) :
    gtin_delegation_holds df gtin g p c row := by
  have hlook : validation_lookup df gtin = Except.ok (p, c) := by
    unfold validation_lookup
    rw [hres]
    dsimp only
    rw [hg]
    dsimp only
    rw [if_neg hg0, hrow]
    dsimp only
    rw [hp, hc]
  have hclilook : cli_lookup df gtin = Except.ok (p, c) := by
    unfold cli_lookup
    rw [hres]
    dsimp only
    rw [hg]
    dsimp only
    rw [if_neg hg0, hrow]
    dsimp only
    rw [hp, hc]
  refine ⟨?_, ?_, ?_⟩
  · unfold validation_check
    rw [hlook]
  · unfold cli_check
    rw [hclilook]
  · unfold first_gtin_match at hrow
    obtain ⟨hpb, pre, post, heq, hall⟩ := List.find?_eq_some.mp hrow
    refine ⟨pre, post, heq, by simpa using hpb, fun r hr => by simpa using hall r hr⟩

/-- The concrete table of the C8 witness. -/
def dfG : DataFrame :=
  { columns := ["Product Name", "Color", "Main Image URL", "Sellable GTIN"]
    rows := [[some "P", some "Red", some "u", some "123"]] }

/-- The resolved columns of `dfG`. -/
def colsG : ResolvedCols :=
  { product := "Product Name", color := "Color", main := "Main Image URL"
    swatch := none, gtin := some "Sellable GTIN" }

/-- C8 witness: the delegation conclusion instantiated on a concrete table. -/
theorem gtin_lookup_delegates_witness :
    resolve_column_names dfG = Except.ok colsG ∧
    colsG.gtin = some "Sellable GTIN" ∧
    ("Sellable GTIN" : String) ≠ "" ∧
    first_gtin_match dfG "Sellable GTIN" "123" =
      some [some "P", some "Red", some "u", some "123"] ∧
    normalize (cellAt dfG.columns [some "P", some "Red", some "u", some "123"]
      colsG.product) = some "P" ∧
    normalize (cellAt dfG.columns [some "P", some "Red", some "u", some "123"]
      colsG.color) = some "Red" ∧
    gtin_delegation_holds dfG "123" "Sellable GTIN" "P" "Red"
      [some "P", some "Red", some "u", some "123"] :=
  ⟨rfl, rfl, by decide, rfl, rfl, rfl,
    gtin_lookup_delegates_to_check dfG "123" colsG "Sellable GTIN"
      [some "P", some "Red", some "u", some "123"] "P" "Red"
      rfl rfl (by decide) rfl rfl rfl⟩

end PdpHelp
